import Mathlib

/-!
Verification development for the laebelmaker core: the Traefik rule model
(`laebelmaker/datatypes.py`) and the label-generation engine
(`laebelmaker/label.py`).  Python classes are embedded as inductive types,
exceptions as an error enumeration carried in `Except`, and Python string
operations as their Lean counterparts (`str.split(sep)` becomes
`List.splitOn` on the character list, `str.join` becomes `pyJoin`).
-/

namespace Laebelmaker

/-- Error kinds raised by the embedded code.  `unknownRuleType` embeds
`UnknownRuleTypeException`; `invalidArity` the two `assert` statements of
`Rule.__init__`; `noInformation` embeds `NoInformationException`;
`missingRule` and `missingTLSResolver` the two `assert` statements of
`gen_simple_label_set_for_service`; `attributeError` a `getattr` failure;
`noInput` stands for an input loop that never receives a usable value. -/
inductive LMError where
  | unknownRuleType
  | invalidArity
  | noInformation
  | missingRule
  | missingTLSResolver
  | attributeError
  | noInput
deriving DecidableEq, Repr

/-- Embedding of the `Rule` / `CombinedRule` class pair from
`laebelmaker/datatypes.py` as a tagged sum: `simple typ content` is a
`Rule` instance with fields `typ` and `content`; `combined rules operators`
is a `CombinedRule` instance with fields `rules` and `operators`. -/
inductive Rule where
  | simple (typ : String) (content : List String)
  | combined (rules : List Rule) (operators : List String)

/-- Python `sep.join(xs)`. -/
def pyJoin (sep : String) : List String → String
  | [] => ""
  | [x] => x
  | x :: xs => x ++ sep ++ pyJoin sep xs

mutual

/-- Embeds `Rule.__str__` / `CombinedRule.__str__`.  A `combined` with an empty
`rules` list would raise `IndexError` in the source (`self.rules[0]`); it is
never produced by this program, and we render it as the empty string. -/
def renderRule : Rule → String
  | Rule.simple typ content =>
    typ ++ "(" ++ ("`" ++ pyJoin "`, `" content ++ "`") ++ ")"
  | Rule.combined rules operators =>
    match rules with
    | [] => ""
    | r0 :: rest => "(" ++ renderCombAux (renderRule r0) rest operators ++ ")"

/-- The `for rule, operator in zip(self.rules[1:], self.operators)` loop of
`CombinedRule.__str__`, accumulating into `full_rule`. -/
def renderCombAux (acc : String) : List Rule → List String → String
  | r :: rs, oper :: ops =>
    renderCombAux (acc ++ " " ++ oper ++ " " ++ renderRule r) rs ops
  | _, _ => acc

end

/-- Embeds `Rule.ALLOWED_RULES`. -/
def ALLOWED_RULES : List String := ["Host", "Path", "PathPrefix", "Headers"]

/-- Embeds `Rule.__init__`: rejects a `typ` outside `ALLOWED_RULES`
(`UnknownRuleTypeException`), then asserts non-empty content, then asserts
exactly two content elements for `Headers`. -/
def mkRule (typ : String) (content : List String) : Except LMError Rule :=
  if typ ∉ ALLOWED_RULES then Except.error LMError.unknownRuleType
  else if content.length = 0 then Except.error LMError.invalidArity
  else if typ = "Headers" ∧ content.length ≠ 2 then Except.error LMError.invalidArity
  else Except.ok (Rule.simple typ content)

/-- One positional argument of `CombinedRule.__init__`: either a `Rule`
or an operator string (the dynamically-typed `Rule | str` union). -/
inductive RuleArg where
  | rule (r : Rule)
  | oper (s : String)

/-- Embeds `CombinedRule.__init__`: partitions the argument tuple into the
`rules` and `operators` lists, preserving order.  (The `TypeError` branch
cannot arise in the typed embedding.) -/
def mkCombined (args : List RuleArg) : Rule :=
  Rule.combined
    (args.filterMap fun a => match a with | RuleArg.rule r => some r | RuleArg.oper _ => none)
    (args.filterMap fun a => match a with | RuleArg.oper s => some s | RuleArg.rule _ => none)

/-- Python `string.split(sep)` for a one-character separator, acting on a
Lean `String` through its character list. -/
def pySplit (s : String) (sep : Char) : List String :=
  (s.data.splitOn sep).map String.mk

/-- Embeds `CombinedRule.from_string`: splits the input on `/`; one part yields a
`Host` rule on the whole string; two parts build `Host` and `PathPrefix`
rules and select by non-emptiness of domain and path; otherwise the `rule`
local stays `None` and `NoInformationException` is raised. -/
def fromString (string : String) : Except LMError Rule :=
  let url_parts : List String := pySplit string '/'
  match url_parts with
  | [_] => mkRule "Host" [string]
  | [domain, path] =>
    (mkRule "Host" [domain]).bind fun domain_rule =>
    (mkRule "PathPrefix" ["/" ++ path]).bind fun context_rule =>
    if domain ≠ "" ∧ path ≠ "" then
      Except.ok (mkCombined [RuleArg.rule domain_rule, RuleArg.oper "&&", RuleArg.rule context_rule])
    else if domain ≠ "" then Except.ok domain_rule
    else if path ≠ "" then Except.ok context_rule
    else Except.error LMError.noInformation
  | _ => Except.error LMError.noInformation

/-- The `ServiceConfig` dataclass of `laebelmaker/datatypes.py`. -/
structure ServiceConfig where
  deploy_name : String
  rule : Option Rule := none
  url : String := ""
  port : Int := 0
  https_enabled : Bool := false
  https_redirection : Bool := false
  web_entrypoint : String := "web"
  websecure_entrypoint : String := "websecure"
  tls_resolver : String := ""

/-- The module-level constant `ROUTER_PREFIX` of `laebelmaker/label.py`. -/
def router_root : String := "traefik.http.routers"

/-- The module-level constant `SERVICE_PREFIX` of `laebelmaker/label.py`. -/
def service_root : String := "traefik.http.services"

/-- Embeds `traefik_enable()`. -/
def traefik_enable : String := "traefik.enable=true"

/-- Lines 72-77 of `laebelmaker/label.py`: append the load-balancer port
label when `config.port > 0`. -/
def append_port_labels (config : ServiceConfig) (label_set : List String) : List String :=
  let port := config.port
  if port > 0 then
    label_set ++
      [service_root ++ "." ++ config.deploy_name ++ ".loadbalancer.server.port=" ++ toString port]
  else label_set

/-- Embeds `gen_simple_label_set_for_service` from `laebelmaker/label.py`,
statement by statement; the two `assert`s become `missingRule` and
`missingTLSResolver` errors. -/
def gen_simple_label_set_for_service (config : ServiceConfig) (enable : Bool) :
    Except LMError (String × List String) :=
  let label_set : List String := if enable then [traefik_enable] else []
  let service_name : String := config.deploy_name
  match config.rule with
  | none => Except.error LMError.missingRule
  | some rule =>
    let label_set := label_set ++
      [router_root ++ "." ++ service_name ++ ".rule=" ++ renderRule rule]
    if config.https_redirection then
      let label_set := label_set ++
        [router_root ++ "." ++ service_name ++ ".entrypoints=" ++ config.web_entrypoint]
      let label_set := label_set ++
        [router_root ++ "." ++ service_name ++ "-https.rule=" ++ renderRule rule]
      let label_set := label_set ++
        [router_root ++ "." ++ service_name ++ "-https.entrypoints=" ++ config.websecure_entrypoint]
      let middleware_name := service_name ++ "-redir"
      let label_set := label_set ++
        [router_root ++ "." ++ service_name ++ ".middlewares=" ++ middleware_name]
      let label_set := label_set ++
        ["traefik.http.middlewares." ++ middleware_name ++ ".redirectscheme.scheme=https"]
      let resolver := config.tls_resolver
      if resolver.length > 0 then
        let label_set := label_set ++
          [router_root ++ "." ++ service_name ++ "-https.tls=true"]
        let label_set := label_set ++
          [router_root ++ "." ++ service_name ++ "-https.tls.certresolver=" ++ resolver]
        Except.ok (config.deploy_name, append_port_labels config label_set)
      else Except.error LMError.missingTLSResolver
    else Except.ok (config.deploy_name, append_port_labels config label_set)

/-- Variant of `gen_simple_label_set_for_service` that also returns the
service config as it stands when the function returns.  The source mutates
no attribute of `config`, so the embedding threads the unchanged value
through every statement; a `setattr` in the source would surface here as a
differing first component. -/
def gen_simple_label_set_tracked (config : ServiceConfig) (enable : Bool) :
    Except LMError (ServiceConfig × String × List String) :=
  (gen_simple_label_set_for_service config enable).map fun out => (config, out)

/-- A dynamically-typed Python attribute value, as stored in the fields of
`ServiceConfig` (strings, ints, bools, and the optional `Rule`). -/
inductive AttrValue where
  | vstr (s : String)
  | vint (n : Int)
  | vbool (b : Bool)
  | vrule (r : Option Rule)

/-- The attribute names of `ServiceConfig`, in declaration order. -/
inductive SCAttr where
  | deploy_name
  | rule
  | url
  | port
  | https_enabled
  | https_redirection
  | web_entrypoint
  | websecure_entrypoint
  | tls_resolver
deriving DecidableEq

/-- Attribute-name lookup: the string accepted by `getattr`/`setattr` for
each `ServiceConfig` field. -/
def scattrOfString (s : String) : Option SCAttr :=
  if s = "deploy_name" then some SCAttr.deploy_name
  else if s = "rule" then some SCAttr.rule
  else if s = "url" then some SCAttr.url
  else if s = "port" then some SCAttr.port
  else if s = "https_enabled" then some SCAttr.https_enabled
  else if s = "https_redirection" then some SCAttr.https_redirection
  else if s = "web_entrypoint" then some SCAttr.web_entrypoint
  else if s = "websecure_entrypoint" then some SCAttr.websecure_entrypoint
  else if s = "tls_resolver" then some SCAttr.tls_resolver
  else none

/-- The canonical name of each attribute (left inverse of `scattrOfString`). -/
def scattrName : SCAttr → String
  | SCAttr.deploy_name => "deploy_name"
  | SCAttr.rule => "rule"
  | SCAttr.url => "url"
  | SCAttr.port => "port"
  | SCAttr.https_enabled => "https_enabled"
  | SCAttr.https_redirection => "https_redirection"
  | SCAttr.web_entrypoint => "web_entrypoint"
  | SCAttr.websecure_entrypoint => "websecure_entrypoint"
  | SCAttr.tls_resolver => "tls_resolver"

/-- Field read by attribute. -/
def getattrE (c : ServiceConfig) : SCAttr → AttrValue
  | SCAttr.deploy_name => AttrValue.vstr c.deploy_name
  | SCAttr.rule => AttrValue.vrule c.rule
  | SCAttr.url => AttrValue.vstr c.url
  | SCAttr.port => AttrValue.vint c.port
  | SCAttr.https_enabled => AttrValue.vbool c.https_enabled
  | SCAttr.https_redirection => AttrValue.vbool c.https_redirection
  | SCAttr.web_entrypoint => AttrValue.vstr c.web_entrypoint
  | SCAttr.websecure_entrypoint => AttrValue.vstr c.websecure_entrypoint
  | SCAttr.tls_resolver => AttrValue.vstr c.tls_resolver

/-- Field write by attribute.  The value variants always match the field
types at the call sites of this program (`input_item` casts its result to
`type(getattr(config, attr_name))`); a mismatched variant leaves the
config unchanged. -/
def setattrE (c : ServiceConfig) : SCAttr → AttrValue → ServiceConfig
  | SCAttr.deploy_name, AttrValue.vstr s => { c with deploy_name := s }
  | SCAttr.rule, AttrValue.vrule r => { c with rule := r }
  | SCAttr.url, AttrValue.vstr s => { c with url := s }
  | SCAttr.port, AttrValue.vint n => { c with port := n }
  | SCAttr.https_enabled, AttrValue.vbool b => { c with https_enabled := b }
  | SCAttr.https_redirection, AttrValue.vbool b => { c with https_redirection := b }
  | SCAttr.web_entrypoint, AttrValue.vstr s => { c with web_entrypoint := s }
  | SCAttr.websecure_entrypoint, AttrValue.vstr s => { c with websecure_entrypoint := s }
  | SCAttr.tls_resolver, AttrValue.vstr s => { c with tls_resolver := s }
  | _, _ => c

/-- Embeds `getattr(config, name)` over attribute-name strings. -/
def getattrS (c : ServiceConfig) (name : String) : Option AttrValue :=
  (scattrOfString name).map (getattrE c)

/-- Embeds `setattr(config, name, v)` over attribute-name strings (never reached
with an invalid name in this program: `getattr` raises first). -/
def setattrS (c : ServiceConfig) (name : String) (v : AttrValue) : ServiceConfig :=
  match scattrOfString name with
  | some a => setattrE c a v
  | none => c

/-- Python truthiness of an attribute value (`not value`). -/
def isFalsy : AttrValue → Bool
  | AttrValue.vstr s => s = ""
  | AttrValue.vint n => n = 0
  | AttrValue.vbool b => !b
  | AttrValue.vrule r => r.isNone

/-- The `while True` loop of `fill_missing_info`: keep calling
`input_item` until the result is not the empty string.  The successive
`input_item` results are supplied as `inputs`; the source loops forever
when no usable value ever arrives, which an exhausted list represents as
`noInput`. -/
def firstUsableInput : List AttrValue → Except LMError AttrValue
  | [] => Except.error LMError.noInput
  | v :: rest =>
    -- `new_value == ""` is only true for the empty string; values of the
    -- other types compare unequal to `""` in Python.
    match v with
    | AttrValue.vstr s =>
      if s = "" then firstUsableInput rest else Except.ok (AttrValue.vstr s)
    | v => Except.ok v

/-- Embeds `fill_missing_info(config, attr_name, value)` from
`laebelmaker/label.py`.  The interactive collaborators are injected:
`inputs` lists the successive results of `input_item` (already cast to
the field's type, with the `url` default applied), and `query_change`
models `query_change(value, attr_name)`.  Returns the updated config. -/
def fill_missing_info (config : ServiceConfig) (attr_name : String) (value : AttrValue)
    (inputs : List AttrValue) (query_change : AttrValue → String → AttrValue) :
    Except LMError ServiceConfig :=
  let https_related_attrs : List String :=
    ["tls_resolver", "web_entrypoint", "websecure_entrypoint"]
  if attr_name = "deploy_name" ∨ attr_name = "rule" then Except.ok config
  else if attr_name ∈ https_related_attrs ∧ config.https_redirection = false then
    Except.ok config
  else if attr_name = "port" ∧ config.port ≠ 0 then Except.ok config
  else
    -- `typ = type(getattr(config, attr_name))` raises AttributeError on an
    -- unknown attribute before anything is modified.
    match getattrS config attr_name with
    | none => Except.error LMError.attributeError
    | some _ =>
      (if isFalsy value then
        (firstUsableInput inputs).map fun new_value => setattrS config attr_name new_value
      else
        Except.ok (setattrS config attr_name (query_change value attr_name))).bind
      fun config =>
        if attr_name = "url" then
          (fromString config.url).map fun r => { config with rule := some r }
        else Except.ok config

/-! ### Helper lemmas -/

theorem string_mk_data (s : String) : String.mk s.data = s :=
  String.ext rfl

theorem string_length_pos_iff (s : String) : 0 < s.length ↔ s ≠ "" := by
  obtain ⟨l⟩ := s
  cases l <;> simp [String.length, String.ext_iff]

theorem splitOnP_length {α : Type} (p : α → Bool) (l : List α) :
    (l.splitOnP p).length = l.countP p + 1 := by
  induction l with
  | nil => simp [List.splitOnP_nil]
  | cons x xs ih =>
    rw [List.splitOnP_cons]
    by_cases hx : p x
    · simp [hx, ih, List.countP_cons]
    · simp [hx, List.countP_cons, ← ih]

theorem pySplit_eq_single (s : String) (h : s.data.count '/' = 0) :
    pySplit s '/' = [s] := by
  have hnotin : '/' ∉ s.data := List.count_eq_zero.mp h
  unfold pySplit List.splitOn
  rw [List.splitOnP_eq_single]
  · simp [string_mk_data]
  · intro x hx
    simp only [beq_iff_eq]
    exact fun hxeq => hnotin (hxeq ▸ hx)

theorem pySplit_eq_pair (s domain path : String)
    (hs : s.data = domain.data ++ '/' :: path.data)
    (hd : domain.data.count '/' = 0) (hp : path.data.count '/' = 0) :
    pySplit s '/' = [domain, path] := by
  have hnd : '/' ∉ domain.data := List.count_eq_zero.mp hd
  have hnp : '/' ∉ path.data := List.count_eq_zero.mp hp
  unfold pySplit List.splitOn
  rw [hs, List.splitOnP_first (fun x => x == '/') domain.data
        (fun x hx => by
          simp only [beq_iff_eq]
          exact fun hxeq => hnd (hxeq ▸ hx)) '/' (by simp) path.data,
      List.splitOnP_eq_single (fun x => x == '/') path.data
        (fun x hx => by
          simp only [beq_iff_eq]
          exact fun hxeq => hnp (hxeq ▸ hx))]
  simp [string_mk_data]

/-! ### Claim theorems -/

/-- C4 counterexample: the claim says `CombinedRule.from_string` fails
with the NoInformation error on the empty string; in fact the empty
string takes the no-slash branch (`"".split("/") == [""]`) and returns
`Rule("Host", "")`, not an error. -/
theorem fromString_empty_not_noInformation :
    fromString "" ≠ Except.error LMError.noInformation ∧
    fromString "" = Except.ok (Rule.simple "Host" [""]) := by
  have h : fromString "" = Except.ok (Rule.simple "Host" [""]) := rfl
  exact ⟨by rw [h]; intro hc; exact Except.noConfusion hc, h⟩

/-- C4 (amended): of the two inputs with empty domain and path parts,
only the single-slash string "/" fails with the NoInformation error; the
empty string "" has no '/' and returns `Host("")` instead. -/
theorem fromString_both_empty :
    fromString "/" = Except.error LMError.noInformation ∧
    fromString "" = Except.ok (Rule.simple "Host" [""]) :=
  ⟨rfl, rfl⟩

/-- C2 (code contradicts its own test suite): on the exact configuration
of `TestGenSimpleLabelSetForService.test_https_only`
(`https_enabled=True`, `https_redirection=False`, `port=443`), the code
emits the load-balancer port directive for the plain service name
`secureapp` — it never reads `https_enabled` — whereas the test expects
`traefik.http.services.secureapp-https.loadbalancer.server.port=443`. -/
theorem gen_port_label_targets_plain_name :
    gen_simple_label_set_for_service
      ⟨"secureapp", some (Rule.simple "Host" ["secure.example.com"]), "",
        443, true, false, "web", "websecure", "letsencrypt"⟩ true
      = Except.ok ("secureapp",
          ["traefik.enable=true",
           "traefik.http.routers.secureapp.rule=Host(`secure.example.com`)",
           "traefik.http.services.secureapp.loadbalancer.server.port=443"]) ∧
    "traefik.http.services.secureapp-https.loadbalancer.server.port=443" ∉
      ["traefik.enable=true",
       "traefik.http.routers.secureapp.rule=Host(`secure.example.com`)",
       "traefik.http.services.secureapp.loadbalancer.server.port=443"] := by
  exact ⟨rfl, by decide⟩

/-- C6: `Rule` construction succeeds exactly when the kind is in
{Host, Path, PathPrefix, Headers}, the content is non-empty, and a
`Headers` rule has exactly 2 content elements; an unrecognized kind fails
with the UnknownPredicateKind error, empty content or a bad `Headers`
arity fails with the InvalidArity error; a successful construction is the
`Rule` with those fields, a single-content rule renders as `kind(` ++
backtick-quoted content ++ `)`, and `Headers` with key and value renders
as `Headers(` ++ both backtick-quoted, comma-separated ++ `)`. -/
theorem rule_construction_spec (typ : String) (content : List String) :
    ((∃ r, mkRule typ content = Except.ok r) ↔
      (typ ∈ ALLOWED_RULES ∧ content ≠ [] ∧ (typ = "Headers" → content.length = 2)))
  ∧ (typ ∉ ALLOWED_RULES → mkRule typ content = Except.error LMError.unknownRuleType)
  ∧ (typ ∈ ALLOWED_RULES → (content = [] ∨ (typ = "Headers" ∧ content.length ≠ 2)) →
      mkRule typ content = Except.error LMError.invalidArity)
  ∧ (∀ r, mkRule typ content = Except.ok r → r = Rule.simple typ content)
  ∧ (∀ c : String, renderRule (Rule.simple typ [c]) = typ ++ "(`" ++ c ++ "`)")
  ∧ (∀ k v : String,
      renderRule (Rule.simple "Headers" [k, v]) = "Headers(`" ++ k ++ "`, `" ++ v ++ "`)") := by
  refine ⟨?_, ?_, ?_, ?_, ?_, ?_⟩
  · unfold mkRule
    by_cases h1 : typ ∈ ALLOWED_RULES
    · rw [if_neg (not_not_intro h1)]
      by_cases h2 : content.length = 0
      · rw [if_pos h2]
        constructor
        · rintro ⟨r, hr⟩
          exact Except.noConfusion hr
        · rintro ⟨-, hne, -⟩
          exact absurd (List.length_eq_zero.mp h2) hne
      · rw [if_neg h2]
        by_cases h3 : typ = "Headers" ∧ content.length ≠ 2
        · rw [if_pos h3]
          constructor
          · rintro ⟨r, hr⟩
            exact Except.noConfusion hr
          · rintro ⟨-, -, himp⟩
            exact absurd (himp h3.1) h3.2
        · rw [if_neg h3]
          constructor
          · rintro ⟨r, hr⟩
            refine ⟨h1, fun hc => h2 (by simp [hc]), fun hh => ?_⟩
            by_contra hne
            exact h3 ⟨hh, hne⟩
          · intro _
            exact ⟨_, rfl⟩
    · rw [if_pos h1]
      constructor
      · rintro ⟨r, hr⟩
        exact Except.noConfusion hr
      · rintro ⟨hmem, -⟩
        exact absurd hmem h1
  · intro h
    simp [mkRule, h]
  · intro h1 h2
    unfold mkRule
    rw [if_neg (not_not_intro h1)]
    rcases h2 with h2 | ⟨hh, hl⟩
    · rw [if_pos (by simp [h2])]
    · by_cases h2' : content.length = 0
      · rw [if_pos h2']
      · rw [if_neg h2', if_pos ⟨hh, hl⟩]
  · intro r hr
    unfold mkRule at hr
    split at hr
    · exact Except.noConfusion hr
    · split at hr
      · exact Except.noConfusion hr
      · split at hr
        · exact Except.noConfusion hr
        · injection hr with h
          exact h.symm
  · intro c
    show typ ++ "(" ++ ("`" ++ pyJoin "`, `" [c] ++ "`") ++ ")" = _
    apply String.ext
    simp [pyJoin]
  · intro k v
    show "Headers" ++ "(" ++ ("`" ++ pyJoin "`, `" [k, v] ++ "`") ++ ")" = _
    apply String.ext
    simp [pyJoin]

/-- C6 witness: instantiation at `Host` with content `example.com`. -/
theorem rule_construction_spec_witness :
    mkRule "Host" ["example.com"] = Except.ok (Rule.simple "Host" ["example.com"]) ∧
    renderRule (Rule.simple "Host" ["example.com"]) = "Host(`example.com`)" := by
  have h := rule_construction_spec "Host" ["example.com"]
  refine ⟨?_, ?_⟩
  · obtain ⟨r, hr⟩ := h.1.mpr ⟨by decide, by decide, by decide⟩
    rw [hr, h.2.2.2.1 r hr]
  · have := h.2.2.2.2.1 "example.com"
    simpa using this

theorem mkRule_host_ok (x : String) :
    mkRule "Host" [x] = Except.ok (Rule.simple "Host" [x]) := by
  simp [mkRule, ALLOWED_RULES]

theorem mkRule_pp_ok (x : String) :
    mkRule "PathPrefix" [x] = Except.ok (Rule.simple "PathPrefix" [x]) := by
  simp [mkRule, ALLOWED_RULES]

/-- C3: for inputs with at most one '/', `CombinedRule.from_string`
follows the policy table: no '/' gives `Host` on the whole string;
non-empty domain and path give the `&&`-combination of `Host` and
`PathPrefix` rendering as `(Host(..) && PathPrefix(/..))`; empty domain
with non-empty path gives the bare `PathPrefix`; non-empty domain with
empty path gives `Host(domain)`. -/
theorem fromString_policy (s domain path : String) :
    (s.data.count '/' = 0 → fromString s = Except.ok (Rule.simple "Host" [s]))
  ∧ (s.data = domain.data ++ '/' :: path.data →
     domain.data.count '/' = 0 → path.data.count '/' = 0 →
       ((domain ≠ "" → path ≠ "" →
           fromString s = Except.ok (Rule.combined
             [Rule.simple "Host" [domain], Rule.simple "PathPrefix" ["/" ++ path]] ["&&"]) ∧
           renderRule (Rule.combined
             [Rule.simple "Host" [domain], Rule.simple "PathPrefix" ["/" ++ path]] ["&&"])
             = "(Host(`" ++ domain ++ "`) && PathPrefix(`/" ++ path ++ "`))")
        ∧ (domain = "" → path ≠ "" →
           fromString s = Except.ok (Rule.simple "PathPrefix" ["/" ++ path]) ∧
           renderRule (Rule.simple "PathPrefix" ["/" ++ path])
             = "PathPrefix(`/" ++ path ++ "`)")
        ∧ (domain ≠ "" → path = "" →
           fromString s = Except.ok (Rule.simple "Host" [domain])))) := by
  constructor
  · intro h
    unfold fromString
    rw [pySplit_eq_single s h]
    exact mkRule_host_ok s
  · intro hs hd hp
    have hpair := pySplit_eq_pair s domain path hs hd hp
    refine ⟨fun hdne hpne => ⟨?_, ?_⟩, fun hdeq hpne => ⟨?_, ?_⟩, fun hdne hpeq => ?_⟩
    · unfold fromString
      rw [hpair]
      simp only [mkRule_host_ok, mkRule_pp_ok, Except.bind]
      rw [if_pos ⟨hdne, hpne⟩]
      rfl
    · apply String.ext
      simp [renderRule, renderCombAux, pyJoin]
    · unfold fromString
      rw [hpair]
      simp only [mkRule_host_ok, mkRule_pp_ok, Except.bind]
      rw [if_neg (fun hc => hc.1 hdeq), if_neg (fun hc => hc hdeq), if_pos hpne]
    · apply String.ext
      simp [renderRule, pyJoin]
    · unfold fromString
      rw [hpair]
      simp only [mkRule_host_ok, mkRule_pp_ok, Except.bind]
      rw [if_neg (fun hc => hc.2 hpeq), if_pos hdne]

/-- C3 witness: instantiation at "example.com/api". -/
theorem fromString_policy_witness :
    fromString "example.com/api" = Except.ok (Rule.combined
      [Rule.simple "Host" ["example.com"], Rule.simple "PathPrefix" ["/api"]] ["&&"]) ∧
    renderRule (Rule.combined
      [Rule.simple "Host" ["example.com"], Rule.simple "PathPrefix" ["/api"]] ["&&"])
      = "(Host(`example.com`) && PathPrefix(`/api`))" := by
  have h := (fromString_policy "example.com/api" "example.com" "api").2
    (by decide) (by decide) (by decide)
  have h1 := h.1 (by decide) (by decide)
  exact ⟨h1.1, h1.2⟩

/-- C10: an input with two or more '/' characters splits into three or
more parts, so the `rule` local of `from_string` is never assigned and
the NoInformation error is raised. -/
theorem fromString_multi_slash (s : String) (h : 2 ≤ s.data.count '/') :
    fromString s = Except.error LMError.noInformation := by
  have hcount : s.data.count '/' = s.data.countP (fun x => x == '/') := rfl
  have hlen : 3 ≤ (pySplit s '/').length := by
    unfold pySplit List.splitOn
    rw [List.length_map, splitOnP_length]
    rw [hcount] at h
    omega
  rcases hps : pySplit s '/' with _ | ⟨a, _ | ⟨b, _ | ⟨c, rest⟩⟩⟩ <;>
    rw [hps] at hlen
  · simp at hlen
  · simp at hlen
  · simp at hlen
  · unfold fromString
    rw [hps]

/-- C10 witness: instantiation at "a/b/c". -/
theorem fromString_multi_slash_witness :
    2 ≤ "a/b/c".data.count '/' ∧
    fromString "a/b/c" = Except.error LMError.noInformation :=
  ⟨by decide, fromString_multi_slash "a/b/c" (by decide)⟩

theorem gen_ok_spec (c : ServiceConfig) (e : Bool) (r : Rule)
    (h1 : c.rule = some r) (h2 : c.https_redirection = true → c.tls_resolver ≠ "") :
    gen_simple_label_set_for_service c e = Except.ok (c.deploy_name,
      (if e then [traefik_enable] else [])
      ++ [router_root ++ "." ++ c.deploy_name ++ ".rule=" ++ renderRule r]
      ++ (if c.https_redirection then
           [router_root ++ "." ++ c.deploy_name ++ ".entrypoints=" ++ c.web_entrypoint,
            router_root ++ "." ++ c.deploy_name ++ "-https.rule=" ++ renderRule r,
            router_root ++ "." ++ c.deploy_name ++ "-https.entrypoints=" ++ c.websecure_entrypoint,
            router_root ++ "." ++ c.deploy_name ++ ".middlewares=" ++ (c.deploy_name ++ "-redir"),
            "traefik.http.middlewares." ++ (c.deploy_name ++ "-redir") ++ ".redirectscheme.scheme=https",
            router_root ++ "." ++ c.deploy_name ++ "-https.tls=true",
            router_root ++ "." ++ c.deploy_name ++ "-https.tls.certresolver=" ++ c.tls_resolver]
         else [])
      ++ (if c.port > 0 then
           [service_root ++ "." ++ c.deploy_name ++ ".loadbalancer.server.port=" ++ toString c.port]
         else [])) := by
  unfold gen_simple_label_set_for_service append_port_labels
  rw [h1]
  cases hred : c.https_redirection with
  | false =>
    by_cases hp : c.port > 0 <;> simp [hp]
  | true =>
    have hres : 0 < c.tls_resolver.length :=
      (string_length_pos_iff c.tls_resolver).mpr (h2 hred)
    by_cases hp : c.port > 0 <;> simp [hres, hp]

theorem gen_err_missingRule (c : ServiceConfig) (e : Bool) (h : c.rule = none) :
    gen_simple_label_set_for_service c e = Except.error LMError.missingRule := by
  unfold gen_simple_label_set_for_service
  rw [h]

theorem gen_err_missingResolver (c : ServiceConfig) (e : Bool) (r : Rule)
    (h1 : c.rule = some r) (h2 : c.https_redirection = true) (h3 : c.tls_resolver = "") :
    gen_simple_label_set_for_service c e = Except.error LMError.missingTLSResolver := by
  unfold gen_simple_label_set_for_service
  rw [h1, h2, h3]
  simp

/-- C1: under the preconditions (rule set; resolver non-empty when
redirecting), the generated pair is the deploy name together with
precisely, in order: the enable directive (when requested), the router
rule directive, the seven HTTPS-redirection directives (when redirecting),
and the load-balancer port directive (when the port is positive) — and
nothing else. -/
theorem gen_emission_order (c : ServiceConfig) (e : Bool) (r : Rule)
    (h1 : c.rule = some r) (h2 : c.https_redirection = true → c.tls_resolver ≠ "") :
    gen_simple_label_set_for_service c e = Except.ok (c.deploy_name,
      (if e then [traefik_enable] else [])
      ++ [router_root ++ "." ++ c.deploy_name ++ ".rule=" ++ renderRule r]
      ++ (if c.https_redirection then
           [router_root ++ "." ++ c.deploy_name ++ ".entrypoints=" ++ c.web_entrypoint,
            router_root ++ "." ++ c.deploy_name ++ "-https.rule=" ++ renderRule r,
            router_root ++ "." ++ c.deploy_name ++ "-https.entrypoints=" ++ c.websecure_entrypoint,
            router_root ++ "." ++ c.deploy_name ++ ".middlewares=" ++ (c.deploy_name ++ "-redir"),
            "traefik.http.middlewares." ++ (c.deploy_name ++ "-redir") ++ ".redirectscheme.scheme=https",
            router_root ++ "." ++ c.deploy_name ++ "-https.tls=true",
            router_root ++ "." ++ c.deploy_name ++ "-https.tls.certresolver=" ++ c.tls_resolver]
         else [])
      ++ (if c.port > 0 then
           [service_root ++ "." ++ c.deploy_name ++ ".loadbalancer.server.port=" ++ toString c.port]
         else [])) :=
  gen_ok_spec c e r h1 h2

/-- C1 witness: the full emission at a concrete HTTPS-redirection config. -/
theorem gen_emission_order_witness :
    gen_simple_label_set_for_service
      ⟨"myapp", some (Rule.simple "Host" ["example.com"]), "", 8080,
        false, true, "web", "websecure", "letsencrypt"⟩ true
      = Except.ok ("myapp",
          ["traefik.enable=true",
           "traefik.http.routers.myapp.rule=Host(`example.com`)",
           "traefik.http.routers.myapp.entrypoints=web",
           "traefik.http.routers.myapp-https.rule=Host(`example.com`)",
           "traefik.http.routers.myapp-https.entrypoints=websecure",
           "traefik.http.routers.myapp.middlewares=myapp-redir",
           "traefik.http.middlewares.myapp-redir.redirectscheme.scheme=https",
           "traefik.http.routers.myapp-https.tls=true",
           "traefik.http.routers.myapp-https.tls.certresolver=letsencrypt",
           "traefik.http.services.myapp.loadbalancer.server.port=8080"]) := by
  have h := gen_emission_order
    ⟨"myapp", some (Rule.simple "Host" ["example.com"]), "", 8080,
      false, true, "web", "websecure", "letsencrypt"⟩ true
    (Rule.simple "Host" ["example.com"]) rfl (fun _ => by decide)
  exact h

/-- C5: the generator fails exactly when the rule is missing or HTTPS
redirection is requested with an empty TLS resolver; the missing rule
raises the MissingRule error, the empty resolver raises the
MissingTLSResolver error, and every other config generates normally. -/
theorem gen_failure_characterization (c : ServiceConfig) (e : Bool) :
    ((∃ out, gen_simple_label_set_for_service c e = Except.ok out) ↔
      (c.rule ≠ none ∧ (c.https_redirection = true → c.tls_resolver ≠ "")))
  ∧ (c.rule = none →
      gen_simple_label_set_for_service c e = Except.error LMError.missingRule)
  ∧ (∀ r, c.rule = some r → c.https_redirection = true → c.tls_resolver = "" →
      gen_simple_label_set_for_service c e = Except.error LMError.missingTLSResolver) := by
  refine ⟨⟨?_, ?_⟩, gen_err_missingRule c e,
    fun r hr hred hres => gen_err_missingResolver c e r hr hred hres⟩
  · rintro ⟨out, hout⟩
    constructor
    · intro hn
      rw [gen_err_missingRule c e hn] at hout
      exact Except.noConfusion hout
    · intro hred
      by_contra hres
      rcases hr : c.rule with _ | r
      · rw [gen_err_missingRule c e hr] at hout
        exact Except.noConfusion hout
      · rw [gen_err_missingResolver c e r hr hred hres] at hout
        exact Except.noConfusion hout
  · rintro ⟨h1, h2⟩
    rcases hr : c.rule with _ | r
    · exact absurd hr h1
    · exact ⟨_, gen_ok_spec c e r hr h2⟩

/-- C5 witness: a config with no rule fails with the MissingRule error. -/
theorem gen_failure_characterization_witness :
    gen_simple_label_set_for_service
      ⟨"app", none, "", 80, false, false, "web", "websecure", ""⟩ true
      = Except.error LMError.missingRule :=
  (gen_failure_characterization
    ⟨"app", none, "", 80, false, false, "web", "websecure", ""⟩ true).2.1 rfl

/-- C7: the generator is deterministic (equal inputs give equal outputs)
and side-effect-free: on a config meeting the preconditions the tracked
variant returns the config with every field unchanged, and its output
agrees with the plain function, so repeated calls return identical
pairs. -/
theorem gen_deterministic_sideeffect_free (c : ServiceConfig) (e : Bool) (r : Rule)
    (h1 : c.rule = some r) (h2 : c.https_redirection = true → c.tls_resolver ≠ "") :
    gen_simple_label_set_for_service c e = gen_simple_label_set_for_service c e ∧
    ∃ name labels,
      gen_simple_label_set_tracked c e = Except.ok (c, name, labels) ∧
      gen_simple_label_set_for_service c e = Except.ok (name, labels) := by
  refine ⟨rfl, c.deploy_name, _, ?_, gen_ok_spec c e r h1 h2⟩
  unfold gen_simple_label_set_tracked
  rw [gen_ok_spec c e r h1 h2]
  rfl

/-- C7 witness: instantiation at a concrete valid config. -/
theorem gen_deterministic_sideeffect_free_witness :
    gen_simple_label_set_for_service
        ⟨"myapp", some (Rule.simple "Host" ["example.com"]), "", 8080,
          false, false, "web", "websecure", ""⟩ true
      = gen_simple_label_set_for_service
        ⟨"myapp", some (Rule.simple "Host" ["example.com"]), "", 8080,
          false, false, "web", "websecure", ""⟩ true ∧
    ∃ name labels,
      gen_simple_label_set_tracked
        ⟨"myapp", some (Rule.simple "Host" ["example.com"]), "", 8080,
          false, false, "web", "websecure", ""⟩ true
        = Except.ok (⟨"myapp", some (Rule.simple "Host" ["example.com"]), "", 8080,
            false, false, "web", "websecure", ""⟩, name, labels) ∧
      gen_simple_label_set_for_service
        ⟨"myapp", some (Rule.simple "Host" ["example.com"]), "", 8080,
          false, false, "web", "websecure", ""⟩ true
        = Except.ok (name, labels) :=
  gen_deterministic_sideeffect_free _ true (Rule.simple "Host" ["example.com"]) rfl
    (fun h => by exact absurd h (by decide))

/-- C9: `https_enabled` has no influence on label generation — the
generator never reads it, so configs differing only there produce the
same result for either value of the enable flag. -/
theorem gen_ignores_https_enabled (c : ServiceConfig) (b e : Bool) :
    gen_simple_label_set_for_service { c with https_enabled := b } e =
    gen_simple_label_set_for_service c e := rfl

theorem scattr_name_of_parse (s : String) (a : SCAttr) (h : scattrOfString s = some a) :
    s = scattrName a := by
  unfold scattrOfString at h
  split_ifs at h with h1 h2 h3 h4 h5 h6 h7 h8 h9
  · injection h with h0; subst h0; exact h1
  · injection h with h0; subst h0; exact h2
  · injection h with h0; subst h0; exact h3
  · injection h with h0; subst h0; exact h4
  · injection h with h0; subst h0; exact h5
  · injection h with h0; subst h0; exact h6
  · injection h with h0; subst h0; exact h7
  · injection h with h0; subst h0; exact h8
  · injection h with h0; subst h0; exact h9

theorem getattrE_setattrE_ne (c : ServiceConfig) (v : AttrValue) (a b : SCAttr)
    (h : a ≠ b) : getattrE (setattrE c a v) b = getattrE c b := by
  cases a <;> cases b <;> first
    | exact absurd rfl h
    | (cases v <;> rfl)

theorem getattrS_setattrS_ne (c : ServiceConfig) (name f : String) (v : AttrValue)
    (h : f ≠ name) : getattrS (setattrS c name v) f = getattrS c f := by
  unfold setattrS
  cases hn : scattrOfString name with
  | none => rfl
  | some a =>
    unfold getattrS
    cases hf2 : scattrOfString f with
    | none => rfl
    | some b =>
      have hna := scattr_name_of_parse name a hn
      have hfb := scattr_name_of_parse f b hf2
      have hab : a ≠ b := fun he => h (by rw [hfb, hna, he])
      exact congrArg some (getattrE_setattrE_ne c v a b hab)

theorem getattrS_rule_update (c : ServiceConfig) (r : Option Rule) (f : String)
    (hf : f ≠ "rule") : getattrS { c with rule := r } f = getattrS c f := by
  unfold getattrS
  cases hp : scattrOfString f with
  | none => rfl
  | some b =>
    have hname := scattr_name_of_parse f b hp
    have hb : b ≠ SCAttr.rule := fun hbr => hf (by rw [hname, hbr]; rfl)
    have hgb : getattrE { c with rule := r } b = getattrE c b := by
      cases b <;> first
        | exact absurd rfl hb
        | rfl
    exact congrArg some hgb

theorem except_bind_ok {ε α β : Type} {x : Except ε α} {f : α → Except ε β} {b : β}
    (h : x.bind f = Except.ok b) : ∃ a, x = Except.ok a ∧ f a = Except.ok b := by
  cases x with
  | error e => exact Except.noConfusion h
  | ok a => exact ⟨a, rfl, h⟩

theorem except_map_ok {ε α β : Type} {x : Except ε α} {g : α → β} {b : β}
    (h : x.map g = Except.ok b) : ∃ a, x = Except.ok a ∧ g a = b := by
  cases x with
  | error e => exact Except.noConfusion h
  | ok a =>
    simp only [Except.map] at h
    injection h with h2
    exact ⟨a, rfl, h2⟩

/-- C8: `fill_missing_info` leaves the config untouched (and consults no
callback) for `deploy_name` and `rule`, for the HTTPS-related fields when
redirection is off, and for an already-set port; in every other case a
successful call changes at most the named field, plus `rule` when the
field is `url`. -/
theorem fill_missing_info_frame (c : ServiceConfig) (attr : String) (v : AttrValue)
    (inputs : List AttrValue) (qc : AttrValue → String → AttrValue) :
    ((attr = "deploy_name" ∨ attr = "rule") →
        fill_missing_info c attr v inputs qc = Except.ok c)
  ∧ ((attr = "tls_resolver" ∨ attr = "web_entrypoint" ∨ attr = "websecure_entrypoint") →
        c.https_redirection = false →
        fill_missing_info c attr v inputs qc = Except.ok c)
  ∧ (attr = "port" → c.port ≠ 0 →
        fill_missing_info c attr v inputs qc = Except.ok c)
  ∧ (∀ c', fill_missing_info c attr v inputs qc = Except.ok c' →
      ∀ f : String, f ≠ attr → (attr = "url" → f ≠ "rule") →
        getattrS c' f = getattrS c f) := by
  refine ⟨?_, ?_, ?_, ?_⟩
  · intro h
    simp only [fill_missing_info]
    rw [if_pos h]
  · intro hmem hred
    rcases hmem with h | h | h <;> subst h <;> simp [fill_missing_info, hred]
  · intro h hport
    subst h
    simp [fill_missing_info, hport]
  · intro c' hc' f hf hfr
    simp only [fill_missing_info] at hc'
    split at hc'
    · injection hc' with h0
      subst h0
      rfl
    · split at hc'
      · injection hc' with h0
        subst h0
        rfl
      · split at hc'
        · injection hc' with h0
          subst h0
          rfl
        · split at hc'
          · exact Except.noConfusion hc'
          · obtain ⟨mid, hmid, hsecond⟩ := except_bind_ok hc'
            have hmid' : ∃ nv, mid = setattrS c attr nv := by
              by_cases hv : isFalsy v
              · rw [if_pos hv] at hmid
                obtain ⟨nv, hnv, hset⟩ := except_map_ok hmid
                exact ⟨nv, hset.symm⟩
              · rw [if_neg hv] at hmid
                injection hmid with h0
                exact ⟨qc v attr, h0.symm⟩
            obtain ⟨nv, hmideq⟩ := hmid'
            by_cases hurl : attr = "url"
            · rw [if_pos hurl] at hsecond
              obtain ⟨r, hr, hc'eq⟩ := except_map_ok hsecond
              rw [← hc'eq, hmideq]
              rw [getattrS_rule_update _ _ f (hfr hurl)]
              exact getattrS_setattrS_ne c attr f nv hf
            · rw [if_neg hurl] at hsecond
              injection hsecond with h0
              rw [← h0, hmideq]
              exact getattrS_setattrS_ne c attr f nv hf

/-- C8 witness: `fill_missing_info` on `deploy_name` returns the config
unchanged for any inputs. -/
theorem fill_missing_info_frame_witness :
    fill_missing_info
      ⟨"x", none, "", 0, false, false, "web", "websecure", ""⟩
      "deploy_name" (AttrValue.vstr "") [] (fun v _ => v)
      = Except.ok ⟨"x", none, "", 0, false, false, "web", "websecure", ""⟩ :=
  (fill_missing_info_frame
    ⟨"x", none, "", 0, false, false, "web", "websecure", ""⟩
    "deploy_name" (AttrValue.vstr "") [] (fun v _ => v)).1 (Or.inl rfl)

end Laebelmaker
